import Mathlib

/-!
Formal model of the ESP32-C3 SuperMini board-integration layer
(`main/boards/esp32c3-supermini/esp32c3_supermini_board.cc`).

The board class is embedded shallowly: the observable state of the board
(display pointer, the two function-local static singletons, the button
binding, and the owned `WifiStation`) becomes a record, each member
function becomes a function on that record, and the pointer-returning
accessors return `Option Nat` (a C++ pointer is `none` exactly when it is
null, a handle number otherwise).  External collaborators that are not part
of the sources (the `WifiStation` managed component, the application's
device-state enum, the `PowerSaveLevel` enum from `board.h`) are modelled
from the spec's description of their contracts.
-/

namespace XiaoZhi

/-- `WifiPowerSaveLevel`, the radio's power-save enum from the
`78__esp-wifi-connect` managed component (external to these sources); the
source file names its enumerators `LOW_POWER`, `BALANCED`, `PERFORMANCE`. -/
inductive WifiPowerSaveLevel where
  | LOW_POWER
  | BALANCED
  | PERFORMANCE
deriving DecidableEq

/-- Modelled from the spec: `PowerSaveLevel` is the enumeration consumed by
`SetPowerSaveLevel`, declared in `board.h` which is not among the sources.
The spec gives its enumerators as LOW_POWER, BALANCED, PERFORMANCE and says
unknown values are possible inputs; as a C++ scoped enum it can carry any
value of its underlying integer type, so it is modelled as a wrapped
integer together with three named enumerator constants. -/
structure PowerSaveLevel where
  val : Int
deriving DecidableEq

def PowerSaveLevel.LOW_POWER : PowerSaveLevel := ⟨0⟩

def PowerSaveLevel.BALANCED : PowerSaveLevel := ⟨1⟩

def PowerSaveLevel.PERFORMANCE : PowerSaveLevel := ⟨2⟩

/-- Modelled from the spec: the observable state of the `WifiStation`
managed component behind its
Start/Stop/IsConnected/GetSsid/GetIpAddress/GetRssi/SetPowerSaveLevel
surface (the component itself is external to these sources).
`powerSave = none` means no power-save level has been stored yet. -/
structure WifiStation where
  started : Bool
  connected : Bool
  ssid : String
  ipAddress : String
  rssi : Int
  powerSave : Option WifiPowerSaveLevel
deriving DecidableEq

/-- Modelled from the spec: `WifiStation::Start` begins association. -/
def WifiStation.Start (w : WifiStation) : WifiStation :=
  { w with started := true }

/-- Modelled from the spec: `WifiStation::Stop`. -/
def WifiStation.Stop (w : WifiStation) : WifiStation :=
  { w with started := false }

/-- Modelled from the spec: `WifiStation::SetPowerSaveLevel` stores the
given level (the stored level is the spec's test hook). -/
def WifiStation.SetPowerSaveLevel (l : WifiPowerSaveLevel) (w : WifiStation) : WifiStation :=
  { w with powerSave := some l }

/-- Modelled from the spec: `WifiStation::IsConnected`. -/
def WifiStation.IsConnected (w : WifiStation) : Bool := w.connected

/-- Modelled from the spec: `WifiStation::GetSsid`. -/
def WifiStation.GetSsid (w : WifiStation) : String := w.ssid

/-- Modelled from the spec: `WifiStation::GetIpAddress`. -/
def WifiStation.GetIpAddress (w : WifiStation) : String := w.ipAddress

/-- Modelled from the spec: `WifiStation::GetRssi`. -/
def WifiStation.GetRssi (w : WifiStation) : Int := w.rssi

/-- Modelled from the spec: the application's device-state enum, of which
this layer consumes only `kDeviceStateStarting`; every other value is
opaque. -/
inductive DeviceState where
  | kDeviceStateStarting
  | kDeviceStateOther (code : Nat)
deriving DecidableEq

/-- The observable actions performed by the boot button's click callback,
in the order the callback performs them. -/
inductive ButtonEvent where
  | wifiStop
  | delayMs (ms : Nat)
  | wifiStart
  | logInfo
  | toggleChatState
deriving DecidableEq

/-- Commands a board operation issues to the radio station. -/
inductive RadioCmd where
  | start
  | stop
  | setPowerSave (l : WifiPowerSaveLevel)
deriving DecidableEq

/-- Observable state of one `Esp32C3SuperMiniBoard` instance plus the two
process-wide static singletons its accessors own.  Pointers are `Option
Nat` handles; `nextHandle` is a fresh-handle allocator modelling `new` and
the address of a static object. -/
structure BoardState where
  displayHandle : Option Nat
  ledHandle : Option Nat
  codecHandle : Option Nat
  buttonBound : Bool
  wifi : WifiStation
  nextHandle : Nat
deriving DecidableEq

namespace Esp32C3SuperMiniBoard

/-- `InitializeLcdDisplay` (lines 48-80): allocates the display object and
stores the pointer in `display_`. -/
def InitializeLcdDisplay (s : BoardState) : BoardState :=
  { s with displayHandle := some s.nextHandle, nextHandle := s.nextHandle + 1 }

/-- The click callback bound in `InitializeButtons` (lines 82-96): if the
device state is `kDeviceStateStarting` and the radio is not connected, it
stops the radio, delays 100 ms, starts the radio and logs; then it always
toggles the chat state once.  Returns the performed actions in order,
together with the radio state they leave behind. -/
def buttonClickCallback (ds : DeviceState) (w : WifiStation) : List ButtonEvent × WifiStation :=
  if ds = DeviceState.kDeviceStateStarting ∧ w.IsConnected = false then
    ([ButtonEvent.wifiStop, ButtonEvent.delayMs 100, ButtonEvent.wifiStart,
      ButtonEvent.logInfo, ButtonEvent.toggleChatState],
     WifiStation.Start (WifiStation.Stop w))
  else
    ([ButtonEvent.toggleChatState], w)

/-- `InitializeButtons` (lines 82-96): binds the click callback. -/
def InitializeButtons (s : BoardState) : BoardState :=
  { s with buttonBound := true }

/-- The constructor (lines 99-103): member init, then `InitializeSpi` (no
observable state in this model), `InitializeLcdDisplay`,
`InitializeButtons`.  `w` is whatever state the default-constructed
`WifiStation` member starts in. -/
def newBoard (w : WifiStation) : BoardState :=
  InitializeButtons (InitializeLcdDisplay
    { displayHandle := none, ledHandle := none, codecHandle := none,
      buttonBound := false, wifi := w, nextHandle := 0 })

/-- `GetLed` (lines 112-115): function-local static `SingleLed`,
constructed on first call; returns its address. -/
def GetLed (s : BoardState) : Option Nat × BoardState :=
  match s.ledHandle with
  | some h => (some h, s)
  | none => (some s.nextHandle,
      { s with ledHandle := some s.nextHandle, nextHandle := s.nextHandle + 1 })

/-- `GetDisplay` (lines 117-119): returns `display_`. -/
def GetDisplay (s : BoardState) : Option Nat × BoardState :=
  (s.displayHandle, s)

/-- `GetAudioCodec` (lines 121-127): function-local static
`NoAudioCodecSimplex`, constructed on first call; returns its address. -/
def GetAudioCodec (s : BoardState) : Option Nat × BoardState :=
  match s.codecHandle with
  | some h => (some h, s)
  | none => (some s.nextHandle,
      { s with codecHandle := some s.nextHandle, nextHandle := s.nextHandle + 1 })

/-- `GetBoardType` (lines 130-132). -/
def GetBoardType (s : BoardState) : String × BoardState :=
  (("esp32c3-supermini"), s)

/-- `GetNetwork` (lines 134-138): returns `nullptr`. -/
def GetNetwork (s : BoardState) : Option Nat × BoardState :=
  (none, s)

/-- `StartNetwork` (lines 140-143): calls `wifi_station_.Start()` and
nothing else; the second component is the list of radio commands issued. -/
def StartNetwork (s : BoardState) : BoardState × List RadioCmd :=
  ({ s with wifi := s.wifi.Start }, [RadioCmd.start])

/-- `GetNetworkStateIcon` (lines 145-147): a ternary over two string
literals; a returned C string pointer is modelled as `Option String`. -/
def GetNetworkStateIcon (s : BoardState) : Option String × BoardState :=
  ((if s.wifi.IsConnected then some ("wifi") else some ("wifi_off")), s)

/-- The `switch` in `SetPowerSaveLevel` (lines 152-164): the three named
enumerators map to their namesakes, the `default` arm yields BALANCED. -/
def mapPowerSaveLevel (level : PowerSaveLevel) : WifiPowerSaveLevel :=
  if level = PowerSaveLevel.LOW_POWER then WifiPowerSaveLevel.LOW_POWER
  else if level = PowerSaveLevel.BALANCED then WifiPowerSaveLevel.BALANCED
  else if level = PowerSaveLevel.PERFORMANCE then WifiPowerSaveLevel.PERFORMANCE
  else WifiPowerSaveLevel.BALANCED

/-- `SetPowerSaveLevel` (lines 149-166): computes `wifi_level` by the
switch above and hands it to the radio. -/
def SetPowerSaveLevel (level : PowerSaveLevel) (s : BoardState) : BoardState × List RadioCmd :=
  ({ s with wifi := s.wifi.SetPowerSaveLevel (mapPowerSaveLevel level) },
   [RadioCmd.setPowerSave (mapPowerSaveLevel level)])

end Esp32C3SuperMiniBoard

/-- The board operations the application can invoke after construction;
`buttonClick` is a click of the boot button while the application is in the
given device state. -/
inductive BoardOp where
  | getLed
  | getAudioCodec
  | getDisplay
  | getBoardType
  | getNetwork
  | startNetwork
  | getNetworkStateIcon
  | setPowerSaveLevel (l : PowerSaveLevel)
  | getBoardJson
  | getDeviceStatusJson
  | buttonClick (ds : DeviceState)
deriving DecidableEq

namespace Esp32C3SuperMiniBoard

/-- State transition of one board operation (the output components are
dropped; the JSON accessors do not change the state at all, see their
definitions below for the returned strings). -/
def step : BoardOp → BoardState → BoardState
  | BoardOp.getLed, s => (GetLed s).2
  | BoardOp.getAudioCodec, s => (GetAudioCodec s).2
  | BoardOp.getDisplay, s => (GetDisplay s).2
  | BoardOp.getBoardType, s => (GetBoardType s).2
  | BoardOp.getNetwork, s => (GetNetwork s).2
  | BoardOp.startNetwork, s => (StartNetwork s).1
  | BoardOp.getNetworkStateIcon, s => (GetNetworkStateIcon s).2
  | BoardOp.setPowerSaveLevel l, s => (SetPowerSaveLevel l s).1
  | BoardOp.getBoardJson, s => s
  | BoardOp.getDeviceStatusJson, s => s
  | BoardOp.buttonClick ds, s => { s with wifi := (buttonClickCallback ds s.wifi).2 }

/-- Runs a sequence of board operations. -/
def run (ops : List BoardOp) (s : BoardState) : BoardState :=
  ops.foldl (fun t op => step op t) s

end Esp32C3SuperMiniBoard

/-! ### JSON values and a JSON parser

The spec states that the two JSON accessors return well-formed JSON, so we
need an independent JSON grammar to check them against.  `Json` is the
value tree; the parser below is a recursive-descent parser for the JSON
fragment the claims exercise: objects, arrays, strings (with the
single-character escapes; `\u` escapes are not needed by any claim),
booleans, null and integer numbers.  The fuel argument bounds the
bracket-nesting depth; `parseJson` passes one more than the input length,
which is always sufficient because every recursive call consumes at least
one character first. -/

/-- JSON value trees. -/
inductive Json where
  | jnull
  | jbool (b : Bool)
  | jint (n : Int)
  | jstr (s : String)
  | jarr (elements : List Json)
  | jobj (members : List (String × Json))

/-- Consumes JSON insignificant whitespace. -/
def skipWs : List Char → List Char
  | [] => []
  | c :: cs => if c = ' ' ∨ c = '\n' ∨ c = '\t' ∨ c = '\r' then skipWs cs else c :: cs

/-- The character denoted by a single-character JSON escape. -/
def escChar (e : Char) : Option Char :=
  if e = '"' then some ('"')
  else if e = '\\' then some ('\\')
  else if e = '/' then some ('/')
  else if e = 'b' then some (Char.ofNat 8)
  else if e = 'f' then some (Char.ofNat 12)
  else if e = 'n' then some ('\n')
  else if e = 'r' then some ('\r')
  else if e = 't' then some ('\t')
  else none

mutual

/-- Parses the body of a JSON string after the opening quote, up to and
including the closing quote; returns the denoted characters and the rest
of the input.  Unescaped control characters are rejected, as JSON
requires. -/
def parseStringBody : List Char → Option (List Char × List Char)
  | [] => none
  | c :: cs =>
    if c = '"' then some ([], cs)
    else if c = '\\' then parseStringEsc cs
    else if c.toNat < 32 then none
    else
      match parseStringBody cs with
      | none => none
      | some p => some (c :: p.1, p.2)

/-- Parses the remainder of a JSON string body directly after a backslash
has been consumed. -/
def parseStringEsc : List Char → Option (List Char × List Char)
  | [] => none
  | e :: cs2 =>
    match escChar e with
    | none => none
    | some d =>
      match parseStringBody cs2 with
      | none => none
      | some p => some (d :: p.1, p.2)

end

/-- Decimal digit test. -/
def isDigitChar (c : Char) : Bool :=
  47 < c.toNat && c.toNat < 58

/-- Value of a string of decimal digits. -/
def digitsVal (l : List Char) : Nat :=
  l.foldl (fun a c => a * 10 + (c.toNat - 48)) 0

/-- Parses a JSON integer number: an optional minus sign followed by at
least one digit. -/
def parseNumber (cs : List Char) : Option (Json × List Char) :=
  match cs with
  | [] => none
  | c :: rest =>
    if c = '-' then
      match rest.takeWhile isDigitChar with
      | [] => none
      | d :: ds =>
          some (Json.jint (-(digitsVal (d :: ds) : Int)), rest.dropWhile isDigitChar)
    else
      match (c :: rest).takeWhile isDigitChar with
      | [] => none
      | d :: ds =>
          some (Json.jint ((digitsVal (d :: ds) : Int)), (c :: rest).dropWhile isDigitChar)

mutual

/-- Parses one JSON value; the input must start with the value's first
character (callers skip whitespace first). -/
def parseValue : Nat → List Char → Option (Json × List Char)
  | 0, _ => none
  | _ + 1, [] => none
  | fuel + 1, c :: rest =>
      if c = '"' then
        match parseStringBody rest with
        | none => none
        | some p => some (Json.jstr (String.mk p.1), p.2)
      else if c = '\x7b' then
        match skipWs rest with
        | [] => none
        | c1 :: rest1 =>
          if c1 = '\x7d' then some (Json.jobj [], rest1)
          else
            match parseMembers fuel (c1 :: rest1) with
            | none => none
            | some p => some (Json.jobj p.1, p.2)
      else if c = '[' then
        match skipWs rest with
        | [] => none
        | c1 :: rest1 =>
          if c1 = ']' then some (Json.jarr [], rest1)
          else
            match parseElements fuel (c1 :: rest1) with
            | none => none
            | some p => some (Json.jarr p.1, p.2)
      else if c = 't' then
        if rest.take 3 = ['r', 'u', 'e'] then some (Json.jbool true, rest.drop 3) else none
      else if c = 'f' then
        if rest.take 4 = ['a', 'l', 's', 'e'] then some (Json.jbool false, rest.drop 4) else none
      else if c = 'n' then
        if rest.take 3 = ['u', 'l', 'l'] then some (Json.jnull, rest.drop 3) else none
      else parseNumber (c :: rest)

/-- Parses the members of a JSON object after a first non-whitespace,
non-`}` character has been seen, up to and including the closing brace. -/
def parseMembers : Nat → List Char → Option (List (String × Json) × List Char)
  | 0, _ => none
  | _ + 1, [] => none
  | fuel + 1, c :: rest =>
      if c = '"' then
        match parseStringBody rest with
        | none => none
        | some kp =>
          match skipWs kp.2 with
          | [] => none
          | c1 :: rest1 =>
            if c1 = ':' then
              match parseValue fuel (skipWs rest1) with
              | none => none
              | some vp =>
                match skipWs vp.2 with
                | [] => none
                | c2 :: rest2 =>
                  if c2 = ',' then
                    match parseMembers fuel (skipWs rest2) with
                    | none => none
                    | some mp => some ((String.mk kp.1, vp.1) :: mp.1, mp.2)
                  else if c2 = '\x7d' then
                    some ([(String.mk kp.1, vp.1)], rest2)
                  else none
            else none
      else none

/-- Parses the elements of a JSON array after a first non-whitespace,
non-`]` character has been seen, up to and including the closing
bracket. -/
def parseElements : Nat → List Char → Option (List Json × List Char)
  | 0, _ => none
  | fuel + 1, cs =>
    match parseValue fuel cs with
    | none => none
    | some vp =>
      match skipWs vp.2 with
      | [] => none
      | c2 :: rest2 =>
        if c2 = ',' then
          match parseElements fuel (skipWs rest2) with
          | none => none
          | some ep => some (vp.1 :: ep.1, ep.2)
        else if c2 = ']' then some ([vp.1], rest2)
        else none

end

/-- Parses a complete JSON document: one value surrounded by optional
whitespace and nothing else. -/
def parseJson (s : String) : Option Json :=
  match parseValue (s.toList.length + 1) (skipWs s.toList) with
  | none => none
  | some vp => if skipWs vp.2 = [] then some vp.1 else none

/-! ### Decimal rendering (the embedding of printf's `%d`) -/

/-- Decimal digits of a natural number below `fuel`, most significant
first; the fuel argument only makes the recursion structural and any value
above `n` gives the same digits. -/
def natToCharsAux : Nat → Nat → List Char
  | 0, _ => []
  | fuel + 1, n =>
    if n < 10 then [Nat.digitChar n]
    else natToCharsAux fuel (n / 10) ++ [Nat.digitChar (n % 10)]

/-- Decimal digits of a natural number, most significant first. -/
def natToChars (n : Nat) : List Char :=
  natToCharsAux (n + 1) n

/-- What printf's `%d` prints for an integer. -/
def intToChars (i : Int) : List Char :=
  if i < 0 then '-' :: natToChars (-i).toNat else natToChars i.toNat

namespace Esp32C3SuperMiniBoard

/-- `GetBoardJson` (lines 168-183): returns a fixed raw string literal,
reproduced here byte for byte (the literal brace characters are written
`\x7b` and `\x7d`). -/
def boardJsonText : String :=
  "\x7b\n            \"name\": \"ESP32-C3 SuperMini\",\n            \"version\": \"1.0\",\n            \"display\": \x7b\n                \"width\": 240,\n                \"height\": 240,\n                \"type\": \"st7789\"\n            \x7d,\n            \"audio\": \x7b\n                \"input_sample_rate\": 16000,\n                \"output_sample_rate\": 24000\n            \x7d\n        \x7d"

/-- `GetBoardJson` (lines 168-183). -/
def GetBoardJson (s : BoardState) : String × BoardState :=
  (boardJsonText, s)

/-- The characters `snprintf` in `GetDeviceStatusJson` (lines 185-201)
would format before truncation: the raw-string format, reproduced byte for
byte and split at its four conversion specifiers (`%s` for the
connected/ssid/ip arguments, `%d` for the rssi argument). -/
def statusFormatted (w : WifiStation) : List Char :=
  ("\x7b\n                \"wifi_connected\": ").toList
  ++ (if w.IsConnected then ("true") else ("false")).toList
  ++ (",\n                \"wifi_ssid\": \"").toList
  ++ w.GetSsid.toList
  ++ ("\",\n                \"ip_address\": \"").toList
  ++ w.GetIpAddress.toList
  ++ ("\",\n                \"rssi\": ").toList
  ++ intToChars w.GetRssi
  ++ ("\n            \x7d").toList

/-- `GetDeviceStatusJson` (lines 185-201): `snprintf` into a 256-byte
buffer keeps at most 255 formatted characters (and NUL-terminates), and
`std::string(buffer)` reads up to the NUL. -/
def GetDeviceStatusJson (s : BoardState) : String × BoardState :=
  (String.mk ((statusFormatted s.wifi).take 255), s)

end Esp32C3SuperMiniBoard

/-- A character that may appear verbatim inside a JSON string literal
without an escape: not a control character, not the quote, not the
backslash. -/
def jsonSafeChar (c : Char) : Bool :=
  decide (32 ≤ c.toNat) && (c != '"') && (c != '\\')

/-- A string all of whose characters are JSON-safe. -/
def jsonSafeString (s : String) : Bool :=
  s.toList.all jsonSafeChar

/-- The JSON value the status document is expected to denote: exactly the
four keys, populated from the radio's current view. -/
def statusJsonValue (w : WifiStation) : Json :=
  Json.jobj [(("wifi_connected"), Json.jbool w.connected),
             (("wifi_ssid"), Json.jstr w.ssid),
             (("ip_address"), Json.jstr w.ipAddress),
             (("rssi"), Json.jint w.rssi)]

/-- The JSON value the identity document denotes. -/
def boardJsonValue : Json :=
  Json.jobj
    [(("name"), Json.jstr ("ESP32-C3 SuperMini")),
     (("version"), Json.jstr ("1.0")),
     (("display"), Json.jobj
        [(("width"), Json.jint 240),
         (("height"), Json.jint 240),
         (("type"), Json.jstr ("st7789"))]),
     (("audio"), Json.jobj
        [(("input_sample_rate"), Json.jint 16000),
         (("output_sample_rate"), Json.jint 24000)])]

/-! ### Concrete states used to instantiate theorems with hypotheses -/

/-- A radio state matching the spec's scenario S4: connected to SSID
`lab`, address `10.0.0.7`, RSSI −42, no stored power-save level. -/
def sampleWifiS4 : WifiStation :=
  { started := true, connected := true, ssid := ("lab"),
    ipAddress := ("10.0.0.7"), rssi := -42, powerSave := none }

/-- A disconnected radio state (the spec's scenario S1). -/
def sampleWifiS1 : WifiStation :=
  { started := true, connected := false, ssid := (""),
    ipAddress := (""), rssi := 0, powerSave := none }

/-- A radio state whose SSID contains a double quote, so that formatting
it with `%s` into the status JSON produces text that is not JSON. -/
def quoteWifi : WifiStation :=
  { started := true, connected := true, ssid := ("a\"b"),
    ipAddress := ("10.0.0.7"), rssi := -42, powerSave := none }

/-- A radio state whose SSID is 300 characters long, so that the formatted
status text exceeds the 256-byte `snprintf` buffer. -/
def longSsidWifi : WifiStation :=
  { started := true, connected := true, ssid := String.mk (List.replicate 300 'a'),
    ipAddress := ("10.0.0.7"), rssi := -42, powerSave := none }

/-- A sample board state over the S4 radio state. -/
def sampleBoardS4 : BoardState :=
  Esp32C3SuperMiniBoard.newBoard sampleWifiS4

/-- A sample board state over the S1 radio state. -/
def sampleBoardS1 : BoardState :=
  Esp32C3SuperMiniBoard.newBoard sampleWifiS1

/-! ## Helper lemmas -/

namespace Esp32C3SuperMiniBoard

theorem GetLed_returns_stored (s : BoardState) :
    ∃ h : Nat, (GetLed s).1 = some h ∧ ((GetLed s).2).ledHandle = some h := by
  cases hl : s.ledHandle with
  | some h => exact ⟨h, by simp [GetLed, hl]⟩
  | none => exact ⟨s.nextHandle, by simp [GetLed, hl]⟩

theorem GetAudioCodec_returns_stored (s : BoardState) :
    ∃ h : Nat, (GetAudioCodec s).1 = some h ∧ ((GetAudioCodec s).2).codecHandle = some h := by
  cases hl : s.codecHandle with
  | some h => exact ⟨h, by simp [GetAudioCodec, hl]⟩
  | none => exact ⟨s.nextHandle, by simp [GetAudioCodec, hl]⟩

theorem GetLed_of_stored (s : BoardState) (h : Nat) (hs : s.ledHandle = some h) :
    GetLed s = (some h, s) := by
  simp [GetLed, hs]

theorem GetAudioCodec_of_stored (s : BoardState) (h : Nat) (hs : s.codecHandle = some h) :
    GetAudioCodec s = (some h, s) := by
  simp [GetAudioCodec, hs]

theorem step_preserves_ledHandle (op : BoardOp) (s : BoardState) (h : Nat)
    (hs : s.ledHandle = some h) : (step op s).ledHandle = some h := by
  cases op <;>
    simp [step, GetLed, GetAudioCodec, GetDisplay, GetBoardType, GetNetwork,
      StartNetwork, GetNetworkStateIcon, SetPowerSaveLevel, GetDeviceStatusJson,
      hs] <;>
    cases hc : s.codecHandle <;> simp [hc, hs]

theorem step_preserves_codecHandle (op : BoardOp) (s : BoardState) (h : Nat)
    (hs : s.codecHandle = some h) : (step op s).codecHandle = some h := by
  cases op <;>
    simp [step, GetLed, GetAudioCodec, GetDisplay, GetBoardType, GetNetwork,
      StartNetwork, GetNetworkStateIcon, SetPowerSaveLevel, GetDeviceStatusJson,
      hs] <;>
    cases hc : s.ledHandle <;> simp [hc, hs]

theorem step_preserves_displayHandle (op : BoardOp) (s : BoardState) :
    (step op s).displayHandle = s.displayHandle := by
  cases op <;>
    first
      | rfl
      | (simp [step, GetLed, GetAudioCodec, StartNetwork, SetPowerSaveLevel] <;>
         cases hc : s.ledHandle <;> cases hd : s.codecHandle <;> simp [hc, hd])

theorem run_preserves_ledHandle (ops : List BoardOp) (s : BoardState) (h : Nat)
    (hs : s.ledHandle = some h) : (run ops s).ledHandle = some h := by
  induction ops generalizing s with
  | nil => exact hs
  | cons op ops ih => exact ih _ (step_preserves_ledHandle op s h hs)

theorem run_preserves_codecHandle (ops : List BoardOp) (s : BoardState) (h : Nat)
    (hs : s.codecHandle = some h) : (run ops s).codecHandle = some h := by
  induction ops generalizing s with
  | nil => exact hs
  | cons op ops ih => exact ih _ (step_preserves_codecHandle op s h hs)

theorem run_preserves_displayHandle (ops : List BoardOp) (s : BoardState) :
    (run ops s).displayHandle = s.displayHandle := by
  induction ops generalizing s with
  | nil => rfl
  | cons op ops ih => rw [run, List.foldl_cons, ← run, ih, step_preserves_displayHandle]

end Esp32C3SuperMiniBoard

/-! ## Claims -/

open Esp32C3SuperMiniBoard

/-- C1: for each defined `PowerSaveLevel` enumerator, `SetPowerSaveLevel`
makes the radio store the correspondingly named `WifiPowerSaveLevel`
enumerator, and for every value outside the three defined enumerators the
radio stores BALANCED. -/
theorem setPowerSaveLevel_maps_levels (s : BoardState) :
    (SetPowerSaveLevel PowerSaveLevel.LOW_POWER s).1.wifi.powerSave
        = some WifiPowerSaveLevel.LOW_POWER ∧
    (SetPowerSaveLevel PowerSaveLevel.BALANCED s).1.wifi.powerSave
        = some WifiPowerSaveLevel.BALANCED ∧
    (SetPowerSaveLevel PowerSaveLevel.PERFORMANCE s).1.wifi.powerSave
        = some WifiPowerSaveLevel.PERFORMANCE ∧
    ∀ x : PowerSaveLevel, x ≠ PowerSaveLevel.LOW_POWER →
      x ≠ PowerSaveLevel.BALANCED → x ≠ PowerSaveLevel.PERFORMANCE →
      (SetPowerSaveLevel x s).1.wifi.powerSave = some WifiPowerSaveLevel.BALANCED := by
  refine ⟨rfl, rfl, rfl, ?_⟩
  intro x h1 h2 h3
  simp [SetPowerSaveLevel, mapPowerSaveLevel, WifiStation.SetPowerSaveLevel, h1, h2, h3]

/-- Witness for C1: the synthetic out-of-range level 7 is coerced to
BALANCED. -/
theorem setPowerSaveLevel_maps_levels_witness :
    (SetPowerSaveLevel ⟨7⟩ sampleBoardS1).1.wifi.powerSave
      = some WifiPowerSaveLevel.BALANCED :=
  (setPowerSaveLevel_maps_levels sampleBoardS1).2.2.2 ⟨7⟩ (by decide) (by decide) (by decide)

/-- C2: when the device state is Starting and the radio is disconnected,
the click callback performs Stop, a 100 ms delay, Start, and then exactly
one chat toggle, in that order; in every other case it performs no radio
Stop or Start and exactly one chat toggle. -/
theorem buttonClick_resets_then_toggles (ds : DeviceState) (w : WifiStation) :
    ((ds = DeviceState.kDeviceStateStarting ∧ w.IsConnected = false) →
       (buttonClickCallback ds w).1
         = [ButtonEvent.wifiStop, ButtonEvent.delayMs 100, ButtonEvent.wifiStart,
            ButtonEvent.logInfo, ButtonEvent.toggleChatState] ∧
       (∀ n, ButtonEvent.delayMs n ∈ (buttonClickCallback ds w).1 → 100 ≤ n) ∧
       (buttonClickCallback ds w).1.count ButtonEvent.toggleChatState = 1) ∧
    (¬(ds = DeviceState.kDeviceStateStarting ∧ w.IsConnected = false) →
       (buttonClickCallback ds w).1.count ButtonEvent.wifiStop = 0 ∧
       (buttonClickCallback ds w).1.count ButtonEvent.wifiStart = 0 ∧
       (buttonClickCallback ds w).1.count ButtonEvent.toggleChatState = 1) := by
  by_cases hc : ds = DeviceState.kDeviceStateStarting ∧ w.IsConnected = false
  · refine ⟨fun _ => ⟨by simp [buttonClickCallback, hc], ?_, ?_⟩, fun hn => absurd hc hn⟩
    · intro n hn
      simp [buttonClickCallback, hc] at hn
      omega
    · simp [buttonClickCallback, hc]
  · refine ⟨fun hy => absurd hy hc, fun _ => ⟨?_, ?_, ?_⟩⟩ <;>
      simp [buttonClickCallback, hc]

/-- Witness for C2: at device state Starting with the disconnected S1
radio, the callback performs exactly the reset-then-toggle sequence. -/
theorem buttonClick_resets_then_toggles_witness :
    (buttonClickCallback DeviceState.kDeviceStateStarting sampleWifiS1).1
      = [ButtonEvent.wifiStop, ButtonEvent.delayMs 100, ButtonEvent.wifiStart,
         ButtonEvent.logInfo, ButtonEvent.toggleChatState] :=
  ((buttonClick_resets_then_toggles DeviceState.kDeviceStateStarting sampleWifiS1).1
    ⟨rfl, rfl⟩).1

/-- C5: `GetNetworkStateIcon` returns the string `wifi` when the radio
reports connected and `wifi_off` otherwise, and never returns a null
pointer. -/
theorem networkStateIcon_total (s : BoardState) :
    (GetNetworkStateIcon s).1
        = some (if s.wifi.IsConnected then ("wifi") else ("wifi_off")) ∧
    (GetNetworkStateIcon s).1 ≠ none := by
  cases hc : s.wifi.IsConnected <;> simp [GetNetworkStateIcon, hc]

/-- C6: `GetLed` and `GetAudioCodec` each return a non-null handle, and
after the first call the same handle is returned by every later call, no
matter which board operations run in between. -/
theorem led_and_codec_singletons (s : BoardState) (ops : List BoardOp) :
    (GetLed s).1 ≠ none ∧ (GetAudioCodec s).1 ≠ none ∧
    (GetLed (run ops (GetLed s).2)).1 = (GetLed s).1 ∧
    (GetAudioCodec (run ops (GetAudioCodec s).2)).1 = (GetAudioCodec s).1 := by
  obtain ⟨hl, hl1, hl2⟩ := GetLed_returns_stored s
  obtain ⟨hcd, hc1, hc2⟩ := GetAudioCodec_returns_stored s
  refine ⟨by simp [hl1], by simp [hc1], ?_, ?_⟩
  · have hrun := run_preserves_ledHandle ops _ hl hl2
    rw [GetLed_of_stored _ _ hrun, hl1]
  · have hrun := run_preserves_codecHandle ops _ hcd hc2
    rw [GetAudioCodec_of_stored _ _ hrun, hc1]

/-- C7: on this board variant the display pointer is set during
construction, is non-null, is never reassigned by any later operation, and
`GetDisplay` returns that same handle for the whole life of the board. -/
theorem display_handle_stable (w : WifiStation) (ops : List BoardOp)
    (op : BoardOp) (s : BoardState) :
    (newBoard w).displayHandle = some 0 ∧
    (step op s).displayHandle = s.displayHandle ∧
    (GetDisplay (run ops (newBoard w))).1 = some 0 := by
  refine ⟨rfl, step_preserves_displayHandle op s, ?_⟩
  rw [GetDisplay, run_preserves_displayHandle]
  rfl

/-- C8: applying `SetPowerSaveLevel` twice with the same level leaves the
board and the radio in exactly the state one application leaves them in
(and issues the same radio command). -/
theorem setPowerSaveLevel_idempotent (x : PowerSaveLevel) (s : BoardState) :
    SetPowerSaveLevel x (SetPowerSaveLevel x s).1 = SetPowerSaveLevel x s := by
  simp [SetPowerSaveLevel, WifiStation.SetPowerSaveLevel]

/-- C10: `StartNetwork` issues exactly one radio command, `Start`, and
leaves the display handle, the two singletons, the button binding, the
allocator and every radio field other than `started` unchanged. -/
theorem startNetwork_only_starts_radio (s : BoardState) :
    (StartNetwork s).2 = [RadioCmd.start] ∧
    (StartNetwork s).1.wifi = s.wifi.Start ∧
    (StartNetwork s).1.displayHandle = s.displayHandle ∧
    (StartNetwork s).1.ledHandle = s.ledHandle ∧
    (StartNetwork s).1.codecHandle = s.codecHandle ∧
    (StartNetwork s).1.buttonBound = s.buttonBound ∧
    (StartNetwork s).1.nextHandle = s.nextHandle ∧
    (StartNetwork s).1.wifi.powerSave = s.wifi.powerSave ∧
    (StartNetwork s).1.wifi.connected = s.wifi.connected ∧
    (StartNetwork s).1.wifi.ssid = s.wifi.ssid ∧
    (StartNetwork s).1.wifi.ipAddress = s.wifi.ipAddress ∧
    (StartNetwork s).1.wifi.rssi = s.wifi.rssi :=
  ⟨rfl, rfl, rfl, rfl, rfl, rfl, rfl, rfl, rfl, rfl, rfl, rfl⟩

/-! ## JSON round-trip lemmas -/

theorem toList_string_mk (l : List Char) : (String.mk l).toList = l := rfl

theorem string_mk_toList (s : String) : String.mk s.toList = s := rfl

theorem toNat_digitChar (d : Nat) (h : d < 10) : (Nat.digitChar d).toNat = 48 + d := by
  interval_cases d <;> rfl

theorem isDigitChar_digitChar (d : Nat) (h : d < 10) : isDigitChar (Nat.digitChar d) = true := by
  interval_cases d <;> rfl

theorem natToCharsAux_all_digits :
    ∀ fuel n, n < fuel → ((natToCharsAux fuel n).all isDigitChar = true) := by
  intro fuel
  induction fuel with
  | zero => omega
  | succ f ih =>
    intro n hn
    by_cases h : n < 10
    · rw [natToCharsAux, if_pos h]
      simp [isDigitChar_digitChar n h]
    · rw [natToCharsAux, if_neg h]
      have hrec : n / 10 < f := by
        have := Nat.div_lt_self (show 0 < n by omega) (show 1 < 10 by omega)
        omega
      simp [List.all_append, ih (n / 10) hrec,
        isDigitChar_digitChar (n % 10) (Nat.mod_lt _ (by omega))]

theorem natToChars_all_digits (n : Nat) : (natToChars n).all isDigitChar = true :=
  natToCharsAux_all_digits (n + 1) n (Nat.lt_succ_self n)

theorem natToChars_ne_nil (n : Nat) : natToChars n ≠ [] := by
  rw [natToChars]
  by_cases h : n < 10
  · rw [natToCharsAux, if_pos h]
    simp
  · rw [natToCharsAux, if_neg h]
    simp

theorem digitsVal_append_digit (l : List Char) (c : Char) :
    digitsVal (l ++ [c]) = digitsVal l * 10 + (c.toNat - 48) := by
  simp [digitsVal, List.foldl_append]

theorem digitsVal_natToCharsAux :
    ∀ fuel n, n < fuel → digitsVal (natToCharsAux fuel n) = n := by
  intro fuel
  induction fuel with
  | zero => omega
  | succ f ih =>
    intro n hn
    by_cases h : n < 10
    · rw [natToCharsAux, if_pos h]
      simp [digitsVal, toNat_digitChar n h]
    · have hrec : n / 10 < f := by
        have := Nat.div_lt_self (show 0 < n by omega) (show 1 < 10 by omega)
        omega
      rw [natToCharsAux, if_neg h, digitsVal_append_digit, ih (n / 10) hrec,
        toNat_digitChar (n % 10) (Nat.mod_lt _ (by omega))]
      omega

theorem digitsVal_natToChars (n : Nat) : digitsVal (natToChars n) = n :=
  digitsVal_natToCharsAux (n + 1) n (Nat.lt_succ_self n)

theorem takeWhile_append_of_all (p : Char → Bool) (l r : List Char)
    (hl : l.all p = true) (hr : ∀ c, r.head? = some c → p c = false) :
    (l ++ r).takeWhile p = l ∧ (l ++ r).dropWhile p = r := by
  induction l with
  | nil =>
    cases r with
    | nil => simp
    | cons c cs =>
      have hc := hr c rfl
      simp [List.takeWhile_cons, List.dropWhile_cons, hc]
  | cons c cs ih =>
    simp only [List.all_cons, Bool.and_eq_true] at hl
    obtain ⟨hpc, hcs⟩ := hl
    have hih := ih hcs
    simp [List.takeWhile_cons, List.dropWhile_cons, hpc, hih.1, hih.2]

theorem parseNumber_natToChars (m : Nat) (r : List Char)
    (hr : ∀ c, r.head? = some c → isDigitChar c = false) :
    parseNumber (natToChars m ++ r) = some (Json.jint (m : Int), r) := by
  obtain ⟨d, ds, hds⟩ := List.exists_cons_of_ne_nil (natToChars_ne_nil m)
  have hall := natToChars_all_digits m
  have htd := takeWhile_append_of_all isDigitChar (natToChars m) r hall hr
  have hd : isDigitChar d = true := by
    rw [hds] at hall
    exact (Bool.and_eq_true ..).mp ((List.all_cons ..).symm ▸ hall) |>.1
  have hdm : ¬(d = '-') := by
    intro he
    rw [he] at hd
    exact absurd hd (by decide)
  have key : digitsVal (d :: ds) = m := by
    rw [← hds, digitsVal_natToChars]
  rw [hds, List.cons_append, parseNumber, if_neg hdm, ← List.cons_append, ← hds, htd.1, htd.2,
    hds]
  simp [key]

theorem parseNumber_intToChars (i : Int) (r : List Char)
    (hr : ∀ c, r.head? = some c → isDigitChar c = false) :
    parseNumber (intToChars i ++ r) = some (Json.jint i, r) := by
  by_cases hi : i < 0
  · rw [intToChars, if_pos hi]
    obtain ⟨d, ds, hds⟩ := List.exists_cons_of_ne_nil (natToChars_ne_nil (-i).toNat)
    have hall := natToChars_all_digits (-i).toNat
    have htd := takeWhile_append_of_all isDigitChar (natToChars (-i).toNat) r hall hr
    have key : digitsVal (d :: ds) = (-i).toNat := by
      rw [← hds, digitsVal_natToChars]
    rw [List.cons_append, parseNumber, if_pos rfl, htd.1, htd.2, hds]
    have hcast : ((((-i).toNat : Nat) : Int)) = -i := Int.toNat_of_nonneg (by omega)
    simp [key, hcast]
  · rw [intToChars, if_neg hi, parseNumber_natToChars _ r hr,
      Int.toNat_of_nonneg (by omega)]

theorem digit_or_minus_not_special (c x : Char)
    (hc : isDigitChar c = true ∨ c = '-') (hx : isDigitChar x = false)
    (hmx : ¬(('-' : Char) = x)) : ¬(c = x) := by
  intro he
  rcases hc with hd | hm
  · rw [he] at hd
    rw [hd] at hx
    exact Bool.noConfusion hx
  · rw [hm] at he
    exact hmx he

theorem parseValue_number (fuel : Nat) (c : Char) (rest : List Char)
    (hc : isDigitChar c = true ∨ c = '-') :
    parseValue (fuel + 1) (c :: rest) = parseNumber (c :: rest) := by
  have h1 := digit_or_minus_not_special c '"' hc (by decide) (by decide)
  have h2 := digit_or_minus_not_special c '\x7b' hc (by decide) (by decide)
  have h3 := digit_or_minus_not_special c '[' hc (by decide) (by decide)
  have h4 := digit_or_minus_not_special c 't' hc (by decide) (by decide)
  have h5 := digit_or_minus_not_special c 'f' hc (by decide) (by decide)
  have h6 := digit_or_minus_not_special c 'n' hc (by decide) (by decide)
  simp [parseValue, h1, h2, h3, h4, h5, h6]

theorem parseValue_intToChars (fuel : Nat) (i : Int) (r : List Char)
    (hr : ∀ c, r.head? = some c → isDigitChar c = false) :
    parseValue (fuel + 1) (intToChars i ++ r) = some (Json.jint i, r) := by
  by_cases hi : i < 0
  · have hu : intToChars i = '-' :: natToChars (-i).toNat := by
      rw [intToChars, if_pos hi]
    rw [hu, List.cons_append, parseValue_number fuel '-' _ (Or.inr rfl),
      ← List.cons_append, ← hu, parseNumber_intToChars i r hr]
  · have hu : intToChars i = natToChars i.toNat := by
      rw [intToChars, if_neg hi]
    obtain ⟨d, ds, hds⟩ := List.exists_cons_of_ne_nil (natToChars_ne_nil i.toNat)
    have hall := natToChars_all_digits i.toNat
    have hd : isDigitChar d = true := by
      rw [hds] at hall
      exact (Bool.and_eq_true ..).mp ((List.all_cons ..).symm ▸ hall) |>.1
    rw [hu, hds, List.cons_append, parseValue_number fuel d _ (Or.inl hd),
      ← List.cons_append, ← hds, ← hu, parseNumber_intToChars i r hr]

theorem parseStringBody_safe (l : List Char) (r : List Char)
    (h : l.all jsonSafeChar = true) :
    parseStringBody (l ++ '"' :: r) = some (l, r) := by
  induction l with
  | nil => simp [parseStringBody]
  | cons c cs ih =>
    simp only [List.all_cons, Bool.and_eq_true] at h
    obtain ⟨hc, hcs⟩ := h
    simp only [jsonSafeChar, Bool.and_eq_true, decide_eq_true_eq, bne_iff_ne, ne_eq] at hc
    obtain ⟨⟨h32, hq⟩, hb⟩ := hc
    have hlt : ¬(c.toNat < 32) := by omega
    simp [parseStringBody, hq, hb, hlt, ih hcs]

theorem head_cons_not_digit (c0 : Char) (h : isDigitChar c0 = false) (t : List Char) :
    ∀ c, ((c0 :: t).head? = some c) → isDigitChar c = false := by
  intro c hc
  rw [List.head?_cons] at hc
  injection hc with h2
  rw [← h2]
  exact h

theorem parseValue_intToChars_cons (fuel : Nat) (i : Int) (c0 : Char) (t : List Char)
    (h : isDigitChar c0 = false) :
    parseValue (fuel + 1) (intToChars i ++ (c0 :: t)) = some (Json.jint i, c0 :: t) :=
  parseValue_intToChars fuel i (c0 :: t) (head_cons_not_digit c0 h t)

theorem skipWs_num_head (c : Char) (hc : isDigitChar c = true ∨ c = '-') (cs : List Char) :
    skipWs (c :: cs) = c :: cs := by
  have h1 := digit_or_minus_not_special c ' ' hc (by decide) (by decide)
  have h2 := digit_or_minus_not_special c '\n' hc (by decide) (by decide)
  have h3 := digit_or_minus_not_special c '\t' hc (by decide) (by decide)
  have h4 := digit_or_minus_not_special c '\r' hc (by decide) (by decide)
  simp [skipWs, h1, h2, h3, h4]

theorem skipWs_intToChars (i : Int) (r : List Char) :
    skipWs (intToChars i ++ r) = intToChars i ++ r := by
  by_cases hi : i < 0
  · have hu : intToChars i = '-' :: natToChars (-i).toNat := by
      rw [intToChars, if_pos hi]
    rw [hu, List.cons_append, skipWs_num_head '-' (Or.inr rfl), ← List.cons_append, ← hu]
  · have hu : intToChars i = natToChars i.toNat := by
      rw [intToChars, if_neg hi]
    obtain ⟨d, ds, hds⟩ := List.exists_cons_of_ne_nil (natToChars_ne_nil i.toNat)
    have hall := natToChars_all_digits i.toNat
    have hd : isDigitChar d = true := by
      rw [hds] at hall
      exact (Bool.and_eq_true ..).mp ((List.all_cons ..).symm ▸ hall) |>.1
    rw [hu, hds, List.cons_append, skipWs_num_head d (Or.inl hd), ← List.cons_append, ← hds,
      ← hu]

set_option maxHeartbeats 2000000 in
theorem parseValue_statusFormatted (g : Nat) (w : WifiStation)
    (hs : w.ssid.toList.all jsonSafeChar = true)
    (hip : w.ipAddress.toList.all jsonSafeChar = true) :
    parseValue (g + 6) (statusFormatted w) = some (statusJsonValue w, []) := by
  have hs2 : w.ssid.data.all jsonSafeChar = true := hs
  have hip2 : w.ipAddress.data.all jsonSafeChar = true := hip
  have hmk : ∀ s : String, String.mk s.data = s := fun _ => rfl
  cases hcon : w.connected <;>
    simp [statusFormatted, statusJsonValue, WifiStation.IsConnected, WifiStation.GetSsid,
      WifiStation.GetIpAddress, WifiStation.GetRssi, hcon, List.append_assoc,
      parseValue.eq_3, parseMembers.eq_3, skipWs.eq_1, skipWs.eq_2,
      parseStringBody.eq_1, parseStringBody.eq_2,
      parseStringBody_safe, hs2, hip2, jsonSafeChar,
      parseValue_intToChars_cons, skipWs_intToChars, isDigitChar,
      string_mk_toList, hmk]

theorem skipWs_statusFormatted (w : WifiStation) :
    skipWs (statusFormatted w) = statusFormatted w := by
  simp [statusFormatted, skipWs.eq_2, List.append_assoc]

theorem statusFormatted_length_ge_5 (w : WifiStation) :
    5 ≤ (statusFormatted w).length := by
  simp [statusFormatted]

/-- C3 (amended): for every radio state whose SSID and IP-address strings
contain only JSON-safe characters (no control characters, no double
quote, no backslash) and whose formatted status text fits in the 256-byte
buffer, `GetDeviceStatusJson()` parses as a JSON object with exactly the
four keys `wifi_connected`, `wifi_ssid`, `ip_address`, `rssi`, each field
equal to the value the radio reports. -/
theorem deviceStatusJson_wellFormed (s : BoardState)
    (hs : jsonSafeString s.wifi.ssid = true)
    (hip : jsonSafeString s.wifi.ipAddress = true)
    (hlen : (statusFormatted s.wifi).length ≤ 255) :
    parseJson (GetDeviceStatusJson s).1 = some (statusJsonValue s.wifi) := by
  have hs2 : s.wifi.ssid.toList.all jsonSafeChar = true := hs
  have hip2 : s.wifi.ipAddress.toList.all jsonSafeChar = true := hip
  have htake : (statusFormatted s.wifi).take 255 = statusFormatted s.wifi :=
    List.take_of_length_le hlen
  have h5 := statusFormatted_length_ge_5 s.wifi
  show parseJson (String.mk ((statusFormatted s.wifi).take 255)) = _
  rw [htake, parseJson, toList_string_mk, skipWs_statusFormatted,
    show (statusFormatted s.wifi).length + 1
        = ((statusFormatted s.wifi).length - 5) + 6 from by omega,
    parseValue_statusFormatted _ _ hs2 hip2]
  simp [skipWs]

set_option maxRecDepth 10000 in
/-- Witness for C3 (amended), at the spec's scenario S4: connected, SSID
`lab`, address `10.0.0.7`, RSSI −42. -/
theorem deviceStatusJson_wellFormed_witness :
    parseJson (GetDeviceStatusJson sampleBoardS4).1 = some (statusJsonValue sampleWifiS4) :=
  deviceStatusJson_wellFormed sampleBoardS4 (by decide) (by decide) (by decide)

set_option maxRecDepth 10000 in
/-- Counterexample to C3 as stated: for the radio state `quoteWifi`, whose
SSID contains a double quote, the returned status text does not parse as
JSON at all (the claim promised a parse for every SSID). -/
theorem deviceStatusJson_quote_not_json :
    parseJson (GetDeviceStatusJson (Esp32C3SuperMiniBoard.newBoard quoteWifi)).1 = none := rfl

set_option maxRecDepth 10000 in
/-- C4: `GetBoardJson` returns the same bytes on every call in any board
state, and those bytes parse as a JSON object reporting display width
240, height 240, type `st7789`, input_sample_rate 16000 and
output_sample_rate 24000. -/
theorem boardJson_stable_and_wellFormed (s t : BoardState) :
    (GetBoardJson s).1 = (GetBoardJson t).1 ∧
    parseJson (GetBoardJson s).1 = some boardJsonValue :=
  ⟨rfl, rfl⟩

/-- C9: the status document is always strictly shorter than 256 bytes:
text that fits is returned whole, text that would overflow the
256-byte `snprintf` buffer is truncated to 255 bytes. -/
theorem deviceStatusJson_length_lt_256 (s : BoardState) :
    (GetDeviceStatusJson s).1.length < 256 ∧
    ((statusFormatted s.wifi).length ≤ 255 →
      (GetDeviceStatusJson s).1 = String.mk (statusFormatted s.wifi)) ∧
    (255 < (statusFormatted s.wifi).length →
      (GetDeviceStatusJson s).1.length = 255) := by
  refine ⟨?_, ?_, ?_⟩
  · show (String.mk ((statusFormatted s.wifi).take 255)).length < 256
    have he : (String.mk ((statusFormatted s.wifi).take 255)).length
        = ((statusFormatted s.wifi).take 255).length := rfl
    rw [he, List.length_take]
    omega
  · intro h
    show String.mk ((statusFormatted s.wifi).take 255) = _
    rw [List.take_of_length_le h]
  · intro h
    have he : (GetDeviceStatusJson s).1.length
        = ((statusFormatted s.wifi).take 255).length := rfl
    rw [he, List.length_take]
    omega

set_option maxRecDepth 10000 in
/-- Witness for C9: with a 300-character SSID the status string is
truncated to exactly 255 bytes. -/
theorem deviceStatusJson_length_lt_256_witness :
    (GetDeviceStatusJson (Esp32C3SuperMiniBoard.newBoard longSsidWifi)).1.length = 255 :=
  (deviceStatusJson_length_lt_256 (Esp32C3SuperMiniBoard.newBoard longSsidWifi)).2.2
    (by decide)

end XiaoZhi
